import Mathlib

/-!
Verification of the Animal Farm image-analysis API against its
natural-language specification.  The JavaScript source is shallowly
embedded: JS numbers are modelled by exact rationals, nullable values by
Option, thrown exceptions by Except, and in-place array mutation by pure
list transformations.  All definitions follow the source files
(V3VotingService.js, BoundingBoxService.js, ResponseFormatter.js,
server.js, V3BaseMLService.js, V2BaseMLService.js); definitions whose
names start with spec are transcriptions of the specification text used
for refinement comparisons.
-/

namespace AnimalFarm

/-- Math.round of JavaScript: round half away from zero for positive
inputs; the API only rounds non-negative quantities, where JS rounding is
floor of x + 1/2. -/
def jsRound (q : ℚ) : ℚ := ((⌊q + 1/2⌋ : ℤ) : ℚ)

/-- Axis-aligned bounding box with x, y, width, height, exactly the
object shape used throughout BoundingBoxService. -/
structure BBox where
  x : ℚ
  y : ℚ
  width : ℚ
  height : ℚ
deriving DecidableEq, Repr

/-- BoundingBoxService.calculateOverlapRatio: intersection-over-union of
two boxes, with the early guard returning 0 when the boxes do not
strictly overlap.  The same function appears verbatim in both copies of
the service (src/unnamed/part_001 and src/services/BoundingBoxService.js). -/
def calculateOverlapRatio (box1 box2 : BBox) : ℚ :=
  let x1 := max box1.x box2.x
  let y1 := max box1.y box2.y
  let x2 := min (box1.x + box1.width) (box2.x + box2.width)
  let y2 := min (box1.y + box1.height) (box2.y + box2.height)
  if x2 ≤ x1 ∨ y2 ≤ y1 then 0
  else
    let intersectionArea := (x2 - x1) * (y2 - y1)
    let box1Area := box1.width * box1.height
    let box2Area := box2.width * box2.height
    let unionArea := box1Area + box2Area - intersectionArea
    intersectionArea / unionArea

/-- The union area that calculateOverlapRatio divides by, named so that
theorems can speak about the divisor. -/
def iouUnionArea (box1 box2 : BBox) : ℚ :=
  box1.width * box1.height + box2.width * box2.height -
    (min (box1.x + box1.width) (box2.x + box2.width) - max box1.x box2.x) *
    (min (box1.y + box1.height) (box2.y + box2.height) - max box1.y box2.y)

/-- The early no-strict-overlap guard of calculateOverlapRatio. -/
def iouNoOverlap (box1 box2 : BBox) : Prop :=
  min (box1.x + box1.width) (box2.x + box2.width) ≤ max box1.x box2.x ∨
    min (box1.y + box1.height) (box2.y + box2.height) ≤ max box1.y box2.y

instance (box1 box2 : BBox) : Decidable (iouNoOverlap box1 box2) := by
  unfold iouNoOverlap
  infer_instance

/-- A detection consumed by the bounding-box engine: one bbox-bearing
prediction attributed to a service, as assembled in
processBoundingBoxes. -/
structure BDetection where
  service : String
  label : Option String
  emoji : String
  bbox : BBox
  confidence : ℚ
  type : String
deriving DecidableEq, Repr

/-- Deduplication keeping the first occurrence of each element, the
iteration order of a JavaScript Set or of Object.keys insertion. -/
def firstDedup {α : Type} [DecidableEq α] : List α → List α
  | [] => []
  | a :: l => a :: firstDedup (l.filter (fun x => x ≠ a))
termination_by l => l.length
decreasing_by
  simp only [List.length_cons]
  exact Nat.lt_succ_of_le (List.length_filter_le _ _)

/-- BoundingBoxService.findCrossServiceClusters: initial-anchor
clustering.  Walking detections in input order, each unused detection
anchors a new cluster; a later unused detection joins iff its IoU with
the anchor (and the anchor only) is strictly greater than 0.3.  The
used-set loop of the source is equivalent to this partition recursion
because membership tests are always against the anchor, never against
previously added members. -/
def findCrossServiceClusters : List BDetection → List (List BDetection)
  | [] => []
  | d :: rest =>
    (d :: rest.filter (fun j => decide ((0.3 : ℚ) < calculateOverlapRatio d.bbox j.bbox))) ::
      findCrossServiceClusters
        (rest.filter (fun j => ! decide ((0.3 : ℚ) < calculateOverlapRatio d.bbox j.bbox)))
termination_by l => l.length
decreasing_by
  simp only [List.length_cons]
  exact Nat.lt_succ_of_le (List.length_filter_le _ _)

/-- The reduce step of cleanCluster keeping the highest-confidence
detection of one service; on ties the JS conditional keeps the later
element, exactly as the accumulator form below does. -/
def bestByConfidence (d : BDetection) (ds : List BDetection) : BDetection :=
  ds.foldl (fun a b => if b.confidence < a.confidence then a else b) d

/-- The same-service dedup step of cleanCluster: group the cluster by
service in first-occurrence order and keep, per service, only the
highest-confidence detection. -/
def dedupClusterDetections (cluster : List BDetection) : List BDetection :=
  (firstDedup (cluster.map (fun d => d.service))).filterMap (fun s =>
    match cluster.filter (fun d => decide (d.service = s)) with
    | [] => none
    | d :: ds => some (bestByConfidence d ds))

/-- BoundingBoxService.cleanCluster: same-service dedup followed by the
singleton filter with the 0.85 confidence shout threshold; none models
the null return that drops the cluster. -/
def cleanCluster (cluster : List BDetection) : Option (List BDetection) :=
  match cluster with
  | [] => none
  | _ :: _ =>
    match dedupClusterDetections cluster with
    | [singleDetection] =>
      if singleDetection.confidence < (0.85 : ℚ) then none else some [singleDetection]
    | cleanedDetections => some cleanedDetections

/-- Example detection: high-confidence YOLO chair. -/
def exDetYoloHigh : BDetection :=
  ⟨"yolo", some "chair", "🪑", ⟨0, 0, 10, 10⟩, 0.9, "object_detection"⟩

/-- Example detection: low-confidence duplicate from the same service. -/
def exDetYoloLow : BDetection :=
  ⟨"yolo", some "chair", "🪑", ⟨0, 0, 10, 10⟩, 0.4, "object_detection"⟩

/-- Example detection: RT-DETR chair from a second service. -/
def exDetRtdetr : BDetection :=
  ⟨"rtdetr", some "chair", "🪑", ⟨1, 1, 10, 10⟩, 0.8, "object_detection"⟩

/-- Example detection: a lone detection at exactly the shout threshold. -/
def exDetShout : BDetection :=
  ⟨"yolo", some "chair", "🪑", ⟨0, 0, 10, 10⟩, 0.85, "object_detection"⟩

/-- Spatial cluster summary carried on a sentinel detection
(spatial_data in extractAllDetections of V3VotingService). -/
structure SpatialData where
  cluster_id : String
  detection_count : Nat
  avg_confidence : ℚ
deriving DecidableEq, Repr

/-- A detection consumed by the voting engine (extractAllDetections of
V3VotingService): an emoji attributed to a service with an evidence
type, plus the spatial cluster summary on spatial_clustering
sentinels. -/
structure VDetection where
  emoji : String
  service : String
  evidence_type : String
  confidence : ℚ
  shiny : Bool
  spatial_data : Option SpatialData
deriving DecidableEq, Repr

/-- The distinct non-sentinel services of a group, in first-occurrence
order, as computed in analyzeEmojiEvidence. -/
def votingServices (detections : List VDetection) : List String :=
  firstDedup ((detections.map (fun d => d.service)).filter
    (fun s => s ≠ "spatial_clustering"))

/-- Spatial evidence summary of analyzeSpatialEvidence. -/
structure SpatialEvidence where
  service_count : Nat
  clusters : List SpatialData
  max_detection_count : Nat
  avg_confidence : ℚ
  total_instances : Nat
deriving DecidableEq, Repr

/-- V3VotingService.analyzeSpatialEvidence: none when the group has no
spatial detections or no clustered spatial data. -/
def analyzeSpatialEvidence (detections : List VDetection) : Option SpatialEvidence :=
  let spatialDetections := detections.filter (fun d => d.evidence_type = "spatial")
  if spatialDetections.isEmpty then none
  else
    let clusters := spatialDetections.filterMap (fun d => d.spatial_data)
    if clusters.isEmpty then none
    else some
      { service_count := spatialDetections.length
        clusters := clusters
        max_detection_count := (clusters.map (fun c => c.detection_count)).foldl max 0
        avg_confidence := (clusters.map (fun c => c.avg_confidence)).sum / (clusters.length : ℚ)
        total_instances := clusters.length }

/-- Per-emoji analysis record built by analyzeEmojiEvidence.  The
semantic and classification evidence of the source are kept as their
service_count fields (count 0 corresponds to the null evidence object,
exactly matching the null-coalescing reads in
calculateEvidenceWeight). -/
structure EmojiAnalysis where
  emoji : String
  total_votes : Nat
  voting_services : List String
  detections : List VDetection
  spatial : Option SpatialEvidence
  semantic_count : Nat
  classification_count : Nat
  shiny : Bool
deriving DecidableEq, Repr

/-- V3VotingService.analyzeEmojiEvidence restricted to one emoji
group. -/
def analyzeOneGroup (emoji : String) (detections : List VDetection) : EmojiAnalysis :=
  let vs := votingServices detections
  { emoji := emoji
    total_votes := vs.length
    voting_services := vs
    detections := detections
    spatial := analyzeSpatialEvidence detections
    semantic_count := (detections.filter (fun d => d.evidence_type = "semantic")).length
    classification_count := (detections.filter (fun d => d.evidence_type = "classification")).length
    shiny := detections.any (fun d => d.shiny) }

/-- The spatial consensus branch of calculateEvidenceWeight: one bonus
per corroborating detection beyond the first, 0 when the group has no
spatial evidence (the falsy null check of the source). -/
def spatialConsensusBonus (spatial : Option SpatialEvidence) : Int :=
  match spatial with
  | some s => max 0 ((s.max_detection_count : Int) - 1)
  | none => 0

/-- V3VotingService.calculateEvidenceWeight: democratic votes plus
spatial and content consensus bonuses, clamped at 0. -/
def calculateEvidenceWeight (analysis : EmojiAnalysis) : Int :=
  let baseVotes : Int := (analysis.total_votes : Int)
  let totalContentServices := analysis.semantic_count + analysis.classification_count
  let contentConsensusBonus : Int :=
    if 2 ≤ totalContentServices then (totalContentServices : Int) - 1 else 0
  max 0 (baseVotes + spatialConsensusBonus analysis.spatial + contentConsensusBonus)

/-- V3VotingService.shouldIncludeInResults: only groups with more than
one vote are emitted. -/
def shouldIncludeInResults (analysis : EmojiAnalysis) : Bool :=
  1 < analysis.total_votes

/-- An analysis enriched with its evidence weight and final score, as
calculateFinalRanking mutates each analysis in place. -/
structure RankedAnalysis where
  analysis : EmojiAnalysis
  evidence_weight : Int
  final_score : Int
deriving DecidableEq, Repr

/-- The enrichment pass of calculateFinalRanking. -/
def enrichAnalysis (analysis : EmojiAnalysis) : RankedAnalysis :=
  let w := calculateEvidenceWeight analysis
  ⟨analysis, w, (analysis.total_votes : Int) + w⟩

/-- The sort order of calculateFinalRanking: primary total votes
descending, secondary evidence weight descending. -/
def rankLE (a b : RankedAnalysis) : Prop :=
  b.analysis.total_votes < a.analysis.total_votes ∨
    (a.analysis.total_votes = b.analysis.total_votes ∧ b.evidence_weight ≤ a.evidence_weight)

instance : DecidableRel rankLE := fun a b => by
  unfold rankLE
  infer_instance

instance : IsTotal RankedAnalysis rankLE := ⟨by
  intro a b
  unfold rankLE
  omega⟩

instance : IsTrans RankedAnalysis rankLE := ⟨by
  intro a b c hab hbc
  unfold rankLE at *
  omega⟩

/-- One entry of the emitted consensus list.  The source rounds
evidence_weight and final_score to two decimals on emission; both are
integers, so the rounding is the identity and they are kept as
integers here. -/
structure ConsensusItem where
  emoji : String
  votes : Nat
  evidence_weight : Int
  final_score : Int
  specialized : Option (List String)
  services : List String
  validation : List String
  shiny : Bool
deriving DecidableEq, Repr

/-- Keys of the by-type map of analyzeSpecializedEvidence: lowercased
specialized service names in first-occurrence order. -/
def specializedKeys (detections : List VDetection) : List String :=
  firstDedup ((detections.filter (fun d => d.evidence_type = "specialized")).map
    (fun d => d.service.toLower))

/-- The emission map of calculateFinalRanking producing one
ConsensusItem per surviving analysis.  An emitted item has no
validation entries yet (curation runs afterwards). -/
def toConsensusItem (r : RankedAnalysis) : ConsensusItem :=
  { emoji := r.analysis.emoji
    votes := r.analysis.total_votes
    evidence_weight := r.evidence_weight
    final_score := r.final_score
    specialized :=
      if (r.analysis.detections.filter (fun d => d.evidence_type = "specialized")).isEmpty
      then none else some (specializedKeys r.analysis.detections)
    services := r.analysis.voting_services
    validation := []
    shiny := r.analysis.shiny }

/-- V3VotingService.calculateFinalRanking: enrich with weights, filter
by shouldIncludeInResults, sort by votes then weight descending, and
emit.  The stable JavaScript sort under this consistent comparator is
modelled by insertion sort over rankLE. -/
def calculateFinalRanking (emojiAnalysis : List EmojiAnalysis) : List ConsensusItem :=
  ((((emojiAnalysis.map enrichAnalysis).filter
      (fun r => shouldIncludeInResults r.analysis))).insertionSort rankLE).map toConsensusItem

/-- The group-to-consensus pipeline: analyzeEmojiEvidence followed by
calculateFinalRanking, over an association list of emoji groups. -/
def rankGroups (groups : List (String × List VDetection)) : List ConsensusItem :=
  calculateFinalRanking (groups.map (fun g => analyzeOneGroup g.1 g.2))

/-- The person emoji literal of applyPostProcessingCuration. -/
def personEmoji : String := "🧑"

/-- The face emoji literal of applyPostProcessingCuration. -/
def faceEmoji : String := "🙂"

/-- The NSFW emoji literal of applyPostProcessingCuration. -/
def nsfwEmoji : String := "🔞"

/-- The per-item body of applyPostProcessingCuration, with the
cross-item lookups (face present, person present, pose present)
precomputed as in the source, where the emoji map is built before the
mutation pass. -/
def curateItem (facePresent personPresent hasPoseDetection : Bool)
    (item : ConsensusItem) : ConsensusItem :=
  let faceAdj : Int := if item.emoji = personEmoji ∧ facePresent = true then 1 else 0
  let faceVal : List String :=
    if item.emoji = personEmoji ∧ facePresent = true then ["face_confirmed"] else []
  let poseAdj : Int := if item.emoji = personEmoji ∧ hasPoseDetection = true then 1 else 0
  let poseVal : List String :=
    if item.emoji = personEmoji ∧ hasPoseDetection = true then ["pose_confirmed"] else []
  let nsfwAdj : Int := if item.emoji = nsfwEmoji then
      (if personPresent = true then 1 else -1) else 0
  let nsfwVal : List String := if item.emoji = nsfwEmoji then
      (if personPresent = true then ["human_context_confirmed"] else ["suspicious_no_humans"])
    else []
  let curationAdjustment := faceAdj + poseAdj + nsfwAdj
  let newValidation := item.validation ++ faceVal ++ poseVal ++ nsfwVal
  if curationAdjustment ≠ 0 then
    { item with
      evidence_weight := max 0 (item.evidence_weight + curationAdjustment)
      final_score := max 0 (item.final_score + curationAdjustment)
      validation := newValidation }
  else
    { item with validation := newValidation }

/-- V3VotingService.applyPostProcessingCuration over the ranked
consensus list. -/
def applyPostProcessingCuration (rankedConsensus : List ConsensusItem) : List ConsensusItem :=
  let facePresent := rankedConsensus.any (fun i => i.emoji = faceEmoji)
  let personPresent := rankedConsensus.any (fun i => i.emoji = personEmoji)
  let hasPoseDetection := rankedConsensus.any (fun o =>
    match o.specialized with
    | some keys => keys.contains "pose"
    | none => false)
  rankedConsensus.map (curateItem facePresent personPresent hasPoseDetection)

/-- Transcribed from the specification text of C2: total_votes is the
number of distinct services among the detections, excluding the
spatial_clustering sentinel, here phrased as a finite-set
cardinality. -/
def specTotalVotes (detections : List VDetection) : Nat :=
  (((detections.map (fun d => d.service)).filter
    (fun s => s ≠ "spatial_clustering")).toFinset).card

/-- Transcribed from the specification text of C2: the maximal
detection_count over the group's clustered spatial data, 0 when there
is none. -/
def specMaxDetectionCount (detections : List VDetection) : Nat :=
  (((detections.filter (fun d => d.evidence_type = "spatial")).filterMap
    (fun d => d.spatial_data)).map (fun sd => sd.detection_count)).foldl max 0

/-- Transcribed from the specification text of C2: the content
consensus bonus is semantic plus classification count minus one when
that sum is at least 2, else 0. -/
def specContentBonus (detections : List VDetection) : Int :=
  let total := (detections.filter (fun d => d.evidence_type = "semantic")).length +
    (detections.filter (fun d => d.evidence_type = "classification")).length
  if 2 ≤ total then (total : Int) - 1 else 0

/-- Transcribed from the specification text of C2: the pre-curation
weight formula. -/
def specEvidenceWeight (detections : List VDetection) : Int :=
  (specTotalVotes detections : Int) +
    max 0 ((specMaxDetectionCount detections : Int) - 1) +
    specContentBonus detections

/-- Example voting detections: a cat emoji voted by two distinct
services. -/
def exCatDetections : List VDetection :=
  [⟨"😺", "blip", "semantic", 0.75, false, none⟩,
   ⟨"😺", "yolo", "spatial", 0.9, false, none⟩]

/-- Example voting detections: a chair emoji voted by one service
only. -/
def exChairDetections : List VDetection :=
  [⟨"🪑", "yolo", "spatial", 0.5, false, none⟩]

/-- Example emoji group map with a two-vote group and a one-vote
group. -/
def exGroups : List (String × List VDetection) :=
  [("😺", exCatDetections), ("🪑", exChairDetections)]

/-- Example consensus item for the person emoji. -/
def exPersonItem : ConsensusItem :=
  ⟨personEmoji, 3, 4, 7, some ["face"], ["blip", "yolo", "face"], [], false⟩

/-- Example consensus item for the NSFW emoji. -/
def exNsfwItem : ConsensusItem :=
  ⟨nsfwEmoji, 2, 2, 4, some ["nsfw"], ["nsfw", "blip"], [], false⟩

/-- Image dimensions as measured centrally by the server (width and
height); null dimensions are modelled as the surrounding Option. -/
structure Dims where
  width : ℚ
  height : ℚ
deriving DecidableEq, Repr

/-- BoundingBoxService.scaleCoordinates.  The source dereferences
processingDimensions.width and displayDimensions.width without a null
check, so null dimensions raise a TypeError, modelled as the error
branch. -/
def scaleCoordinates (bbox : BBox)
    (processingDimensions displayDimensions : Option Dims) : Except String BBox :=
  match processingDimensions, displayDimensions with
  | some p, some d =>
    let scaleX := d.width / p.width
    let scaleY := d.height / p.height
    Except.ok
      { x := jsRound (bbox.x * scaleX)
        y := jsRound (bbox.y * scaleY)
        width := jsRound (bbox.width * scaleX)
        height := jsRound (bbox.height * scaleY) }
  | _, _ => Except.error "TypeError: Cannot read properties of null (reading width)"

/-- A raw analyzer prediction as consumed by processBoundingBoxes. -/
structure Prediction where
  label : Option String
  emoji : String
  bbox : Option BBox
  confidence : ℚ
  type : String
deriving DecidableEq, Repr

/-- One analyzer's result as consumed by processBoundingBoxes. -/
structure ServiceResult where
  predictions : List Prediction
deriving DecidableEq, Repr

/-- The roster of bbox-capable services iterated by
processBoundingBoxes. -/
def bboxServices : List String :=
  ["yolo", "detectron2", "rtdetr", "yolo_365", "yolo_oi7", "face", "clip", "inception"]

/-- Lookup of results[serviceName]. -/
def lookupService (results : List (String × ServiceResult)) (name : String) :
    Option ServiceResult :=
  (results.find? (fun r => r.1 = name)).map (fun r => r.2)

/-- The extraction loop of processBoundingBoxes: for every bbox-capable
service, every prediction carrying a bbox becomes a detection after
coordinate scaling; processing dimensions equal the original image
dimensions in the V3 contract. -/
def extractBBoxDetections (results : List (String × ServiceResult))
    (imageDimensions : Option Dims) : Except String (List BDetection) :=
  bboxServices.foldlM (fun allDetections serviceName =>
    match lookupService results serviceName with
    | none => Except.ok allDetections
    | some serviceData =>
      serviceData.predictions.foldlM (fun acc prediction =>
        match prediction.bbox with
        | none => Except.ok acc
        | some bb =>
          (scaleCoordinates bb imageDimensions imageDimensions).map (fun scaledBbox =>
            acc ++ [⟨serviceName, prediction.label, prediction.emoji, scaledBbox,
              prediction.confidence, prediction.type⟩])) allDetections) []

/-- Grouping key of groupByLabelWithCrossServiceClustering: the literal
face key for face detections, otherwise the emoji, then normalized.
The normalizeEmoji helper lives in utils/emojiUtils outside the given
sources, so the normalization is an explicit parameter here. -/
def groupKey (norm : String → String) (d : BDetection) : String :=
  norm (if d.type = "face_detection" then "face" else d.emoji)

/-- Insertion-order grouping of detections by key. -/
def groupByKey (norm : String → String) (dets : List BDetection) :
    List (String × List BDetection) :=
  (firstDedup (dets.map (groupKey norm))).map
    (fun k => (k, dets.filter (fun d => groupKey norm d = k)))

/-- One emitted instance of createCrossServiceInstances. -/
structure InstanceOut where
  cluster_id : String
  emoji : String
  label : Option String
  merged_bbox : BBox
  detection_count : Nat
  avg_confidence : ℚ
  detections : List (String × ℚ)
deriving DecidableEq, Repr

/-- Merged bounding box of a cluster: the single member's box, or the
axis-aligned envelope of all members. -/
def mergedBBoxOf : List BDetection → BBox
  | [] => ⟨0, 0, 0, 0⟩
  | [d] => d.bbox
  | d :: ds =>
    let x1 := (ds.map (fun e => e.bbox.x)).foldl min d.bbox.x
    let y1 := (ds.map (fun e => e.bbox.y)).foldl min d.bbox.y
    let x2 := (ds.map (fun e => e.bbox.x + e.bbox.width)).foldl max (d.bbox.x + d.bbox.width)
    let y2 := (ds.map (fun e => e.bbox.y + e.bbox.height)).foldl max (d.bbox.y + d.bbox.height)
    ⟨x1, y1, x2 - x1, y2 - y1⟩

/-- The emoji.slice(1, -1) fallback of the instance label, modelled on
characters. -/
def emojiInnerSlice (s : String) : String := String.mk ((s.data.drop 1).dropLast)

/-- The per-cluster instance record of createCrossServiceInstances. -/
def mkInstance (emoji : String) (index : Nat) (cluster : List BDetection) : InstanceOut :=
  let confidenceScores := cluster.map (fun d => d.confidence)
  let avgConfidence := confidenceScores.sum / (cluster.length : ℚ)
  let baseLabel := (cluster.head?.bind (fun d => d.label)).getD (emojiInnerSlice emoji)
  { cluster_id := baseLabel ++ "_" ++ toString (index + 1)
    emoji := emoji
    label := cluster.head?.bind (fun d => d.label)
    merged_bbox := mergedBBoxOf cluster
    detection_count := cluster.length
    avg_confidence := jsRound (avgConfidence * 1000) / 1000
    detections := cluster.map (fun d => (d.service, d.confidence)) }

/-- The score sort of createCrossServiceInstances.  The source
comparator uses calculateClusterScore, whose log10 term has no exact
rational value, so the comparator is an explicit parameter; the
JavaScript sort is a stable sort under it, modelled by insertion
sort. -/
def sortClustersBy (le : List BDetection → List BDetection → Bool)
    (clusters : List (List BDetection)) : List (List BDetection) :=
  clusters.insertionSort (fun a b => le a b = true)

/-- BoundingBoxService.createCrossServiceInstances: cluster, sort by
score, clean each cluster, drop the null ones, and emit instance
records with one-based ids. -/
def createCrossServiceInstances (le : List BDetection → List BDetection → Bool)
    (detections : List BDetection) (emoji : String) : List InstanceOut :=
  if detections.isEmpty then []
  else
    let crossServiceClusters := findCrossServiceClusters detections
    let sorted := sortClustersBy le crossServiceClusters
    let cleanedClusters := sorted.filterMap cleanCluster
    cleanedClusters.mapIdx (fun index cluster => mkInstance emoji index cluster)

/-- One group of groupByLabelWithCrossServiceClustering (the clusters
field kept for backward compatibility in the source is not consumed by
any claim and is omitted). -/
structure GroupOut where
  emoji : String
  label : Option String
  type : String
  detections : List BDetection
  instances : List InstanceOut
deriving DecidableEq, Repr

/-- BoundingBoxService.groupByLabelWithCrossServiceClustering. -/
def groupByLabelWithCrossServiceClustering (norm : String → String)
    (le : List BDetection → List BDetection → Bool)
    (dets : List BDetection) : List (String × GroupOut) :=
  (groupByKey norm dets).map (fun kg =>
    let ds := kg.2
    let emoji := (ds.head?.map (fun d => d.emoji)).getD ""
    (kg.1,
      { emoji := emoji
        label := ds.head?.bind (fun d => d.label)
        type := (ds.head?.map (fun d => d.type)).getD ""
        detections := ds
        instances := createCrossServiceInstances le ds emoji }))

/-- The output shape of processBoundingBoxes consumed downstream. -/
structure BBoxOutput where
  all_detections : List BDetection
  grouped : List (String × GroupOut)
deriving DecidableEq, Repr

/-- BoundingBoxService.processBoundingBoxes: extract and scale all
detections, then group with cross-service clustering.  Note that
all_detections is assembled before any cleaning. -/
def processBoundingBoxes (norm : String → String)
    (le : List BDetection → List BDetection → Bool)
    (results : List (String × ServiceResult))
    (imageDimensions : Option Dims) : Except String BBoxOutput :=
  (extractBBoxDetections results imageDimensions).map (fun allDetections =>
    { all_detections := allDetections
      grouped := groupByLabelWithCrossServiceClustering norm le allDetections })

/-- One entry of ResponseFormatter.createCompactBoundingBoxes. -/
structure CompactDetection where
  emoji : String
  label : Option String
  service : String
  bbox : BBox
  confidence : ℚ
  type : String
deriving DecidableEq, Repr

/-- ResponseFormatter.createCompactBoundingBoxes maps all_detections
verbatim, dropping only the duplicate original_bbox and dimension
fields. -/
def createCompactBoundingBoxes (boundingBoxData : BBoxOutput) : List CompactDetection :=
  boundingBoxData.all_detections.map (fun d =>
    ⟨d.emoji, d.label, d.service, d.bbox, d.confidence, d.type⟩)

/-- The spatial sentinel extraction of V3VotingService
extractAllDetections: one spatial_clustering detection per emitted
instance of each truthy-emoji group. -/
def extractSpatialSentinels (grouped : List (String × GroupOut)) : List VDetection :=
  grouped.foldl (fun acc kg =>
    if kg.2.emoji = "" then acc
    else acc ++ kg.2.instances.map (fun inst =>
      { emoji := kg.2.emoji
        service := "spatial_clustering"
        evidence_type := "spatial"
        confidence := inst.avg_confidence
        shiny := false
        spatial_data := some ⟨inst.cluster_id, inst.detection_count, inst.avg_confidence⟩ })) []

/-- Example analyzer results: one YOLO chair prediction at confidence
0.5 with a bbox. -/
def exChairResults : List (String × ServiceResult) :=
  [("yolo", ⟨[⟨some "chair", "🪑", some ⟨0, 0, 100, 100⟩, 0.5, "object_detection"⟩]⟩)]

/-- Example measured image dimensions. -/
def exDims : Dims := ⟨200, 200⟩

/-- The scaled chair detection extracted from exChairResults. -/
def exChairDet : BDetection :=
  ⟨"yolo", some "chair", "🪑", ⟨0, 0, 100, 100⟩, 0.5, "object_detection"⟩

/-- The bounding-box output on exChairResults: the chair stays in
all_detections while its singleton cluster is dropped from
instances. -/
def exChairOutput : BBoxOutput :=
  ⟨[exChairDet], [("🪑", ⟨"🪑", some "chair", "object_detection", [exChairDet], []⟩)]⟩

/-- The payload of a fulfilled analyzer promise as consumed by
performAnalysis. -/
structure ServiceOutcomeData where
  success : Bool
  predictionCount : Nat
  processingTime : ℚ
deriving DecidableEq, Repr

/-- One settled analyzer promise of the Promise.allSettled fan-out:
fulfilled with a result or rejected with an error message. -/
structure SettledServiceResult where
  serviceName : String
  outcome : Except String ServiceOutcomeData
deriving Repr

/-- Whether a settled promise was rejected. -/
def outcomeFailed (s : SettledServiceResult) : Bool :=
  match s.outcome with
  | Except.ok _ => false
  | Except.error _ => true

/-- Character-list prefix test, written out to model the JavaScript
String.prototype.includes used on error messages. -/
def charsPrefix : List Char → List Char → Bool
  | [], _ => true
  | _ :: _, [] => false
  | a :: as, b :: bs => a == b && charsPrefix as bs

/-- Character-list containment test. -/
def charsContains (needle : List Char) : List Char → Bool
  | [] => charsPrefix needle []
  | c :: t => charsPrefix needle (c :: t) || charsContains needle t

/-- The message.includes check of performAnalysis, on characters. -/
def strIncludes (hay needle : String) : Bool := charsContains needle.data hay.data

/-- One entry of the serviceStatusList built by performAnalysis. -/
structure ServiceStatus where
  service : String
  status : String
  error : Option String
  predictions : Nat
  time : ℚ
deriving DecidableEq, Repr

/-- The per-promise status classification of performAnalysis: success
for fulfilled, timeout for rejections mentioning timeout, error
otherwise. -/
def mkServiceStatus (s : SettledServiceResult) : ServiceStatus :=
  match s.outcome with
  | Except.ok r => ⟨s.serviceName, "success", none, r.predictionCount, r.processingTime⟩
  | Except.error msg =>
    ⟨s.serviceName, if strIncludes msg "timeout" then "timeout" else "error",
      some msg, 0, 0⟩

/-- One entry of the per-service results map of performAnalysis:
fulfilled results pass through, rejected services get a synthetic
failure entry with empty predictions. -/
structure ResultEntry where
  success : Bool
  error : Option String
  data : Option ServiceOutcomeData
deriving DecidableEq, Repr

/-- The results-map construction of performAnalysis. -/
def mkResultsEntry (s : SettledServiceResult) : String × ResultEntry :=
  match s.outcome with
  | Except.ok r => (s.serviceName, ⟨r.success, none, some r⟩)
  | Except.error msg => (s.serviceName, ⟨false, some msg, none⟩)

/-- The service_health_summary block of performAnalysis. -/
structure HealthSummary where
  degraded_services : List String
  failed_count : Nat
  total_services : Nat
deriving DecidableEq, Repr

/-- The failed-service selection of performAnalysis. -/
def failedServicesOf (serviceStatusList : List ServiceStatus) : List ServiceStatus :=
  serviceStatusList.filter (fun s => s.status ≠ "success")

/-- The healthSummary construction of performAnalysis: present iff at
least one service failed. -/
def buildHealthSummary (serviceStatusList : List ServiceStatus) : Option HealthSummary :=
  let failedServices := failedServicesOf serviceStatusList
  if 0 < failedServices.length then
    some ⟨failedServices.map (fun s => s.service), failedServices.length,
      serviceStatusList.length⟩
  else none

/-- The response fields of createCompactResponse decided by the settled
analyzer outcomes: the top-level success flag, the per-service results
map, the optional health summary, and the offline error string. -/
structure CompactResponse where
  success : Bool
  results : List (String × ResultEntry)
  service_health_summary : Option HealthSummary
  error : Option String
deriving DecidableEq, Repr

/-- The aggregation core of performAnalysis plus
ResponseFormatter.createCompactResponse: statuses and results from the
settled promises, health summary when any failed, success flag false
exactly when the summary lists degraded services. -/
def createCompactResponseCore (settled : List SettledServiceResult) : CompactResponse :=
  let serviceStatusList := settled.map mkServiceStatus
  let healthSummary := buildHealthSummary serviceStatusList
  let hasOfflineServices : Bool :=
    match healthSummary with
    | some h => !h.degraded_services.isEmpty
    | none => false
  { success := !hasOfflineServices
    results := settled.map mkResultsEntry
    service_health_summary := healthSummary
    error :=
      match healthSummary with
      | some h =>
        if hasOfflineServices then
          some (toString h.failed_count ++ " service(s) offline: " ++
            String.intercalate ", " h.degraded_services)
        else none
      | none => none }

/-- Example settled outcomes: one fulfilled analyzer and one rejected
analyzer. -/
def exSettled : List SettledServiceResult :=
  [⟨"blip", Except.ok ⟨true, 3, 1⟩⟩, ⟨"yolo", Except.error "yolo service timeout: x"⟩]

/-- The unified v2 or v3 analyzer response body, reduced to the fields
the client inspects. -/
structure V2RespData where
  status : String
  errorMessage : Option String
deriving DecidableEq, Repr

/-- The outcome of one HTTP attempt against an analyzer: a transport
error, expiry of the client deadline, or a parsed response body. -/
inductive AttemptOutcome where
  | transportError (message : String)
  | timeoutExpired
  | response (data : V2RespData)
deriving DecidableEq, Repr

/-- V2BaseMLService.processV2Response: a body with status error or any
non-success status throws. -/
def processV2ResponseModel (data : V2RespData) : Except String V2RespData :=
  if data.status = "error" then
    Except.error ("Service error: " ++ data.errorMessage.getD "Unknown error")
  else if data.status ≠ "success" then
    Except.error ("Invalid response status: " ++ data.status)
  else Except.ok data

/-- The result of one try-block iteration of
V2BaseMLService.processImage: transport errors and deadline expiry
throw, and response bodies go through processV2Response, which itself
throws on a status of error. -/
def attemptResult (a : AttemptOutcome) : Except String V2RespData :=
  match a with
  | AttemptOutcome.transportError msg => Except.error msg
  | AttemptOutcome.timeoutExpired => Except.error "Request timeout"
  | AttemptOutcome.response data => processV2ResponseModel data

/-- V2BaseMLService.processImage with the network modelled as the
sequence of attempt outcomes: any caught error retries while retryCount
is below maxRetries (the 1 second backoff has no observable effect on
the result value). -/
def processImageModel (maxRetries : Nat) (attempts : Nat → AttemptOutcome)
    (retryCount : Nat) : Except String V2RespData :=
  match attemptResult (attempts retryCount) with
  | Except.ok r => Except.ok r
  | Except.error msg =>
    if h : retryCount < maxRetries then
      processImageModel maxRetries attempts (retryCount + 1)
    else
      Except.error ("service failed after " ++ toString maxRetries ++ " retries: " ++ msg)
termination_by maxRetries + 1 - retryCount
decreasing_by omega

/-- V3BaseMLService constructor timeout: config.timeout or the 30000 ms
default. -/
def v3Timeout (configTimeout : Option Nat) : Nat := configTimeout.getD 30000

/-- V3BaseMLService constructor retries: zero, with no retry loop in
analyze. -/
def v3Retries : Nat := 0

/-- V3BaseMLService.analyze with the network modelled as the sequence
of attempt outcomes: a single attempt whose error is rethrown with a
classified message, never retried. -/
def v3AnalyzeModel (attempts : Nat → AttemptOutcome) : Except String V2RespData :=
  match attemptResult (attempts 0) with
  | Except.ok r => Except.ok r
  | Except.error msg => Except.error ("service failed: " ++ msg)

/-- Whether an attempt outcome is caught by the client's try block. -/
def attemptFails (a : AttemptOutcome) : Prop :=
  ∃ msg, attemptResult a = Except.error msg

/-- Example attempt sequence: first a response with status error, then
a success. -/
def exAttemptsStatusError : Nat → AttemptOutcome :=
  fun n => if n = 0 then AttemptOutcome.response ⟨"error", some "boom"⟩
    else AttemptOutcome.response ⟨"success", none⟩

end AnimalFarm

namespace AnimalFarm

/-- Unfolding equation for calculateOverlapRatio, with the let bindings
of the source inlined. -/
theorem calculateOverlapRatio_eq (box1 box2 : BBox) :
    calculateOverlapRatio box1 box2 =
      if iouNoOverlap box1 box2 then 0
      else ((min (box1.x + box1.width) (box2.x + box2.width) - max box1.x box2.x) *
            (min (box1.y + box1.height) (box2.y + box2.height) - max box1.y box2.y)) /
           iouUnionArea box1 box2 := rfl

/-- C10: the IoU computation is total on every pair of boxes, degenerate
ones included; it returns a value in the closed interval from 0 to 1;
when the boxes do not strictly overlap the early guard returns 0; and
whenever the guard is passed the union area is strictly positive, so the
division is never a division by zero. -/
theorem calculateOverlapRatio_total_in_unit_interval (box1 box2 : BBox) :
    (0 ≤ calculateOverlapRatio box1 box2 ∧ calculateOverlapRatio box1 box2 ≤ 1) ∧
      (iouNoOverlap box1 box2 → calculateOverlapRatio box1 box2 = 0) ∧
      (¬ iouNoOverlap box1 box2 → 0 < iouUnionArea box1 box2) := by
  rw [calculateOverlapRatio_eq]
  by_cases h : iouNoOverlap box1 box2
  · rw [if_pos h]
    exact ⟨⟨le_refl 0, zero_le_one⟩, fun _ => rfl, fun hc => absurd h hc⟩
  · rw [if_neg h]
    unfold iouNoOverlap at h
    push_neg at h
    obtain ⟨hx, hy⟩ := h
    unfold iouUnionArea
    set x1 := max box1.x box2.x with hx1
    set y1 := max box1.y box2.y with hy1
    set x2 := min (box1.x + box1.width) (box2.x + box2.width) with hx2
    set y2 := min (box1.y + box1.height) (box2.y + box2.height) with hy2
    have hiw : 0 < x2 - x1 := by linarith
    have hih : 0 < y2 - y1 := by linarith
    have hw1 : x2 - x1 ≤ box1.width := by
      have h1 : x2 ≤ box1.x + box1.width := min_le_left _ _
      have h2 : box1.x ≤ x1 := le_max_left _ _
      linarith
    have hw2 : x2 - x1 ≤ box2.width := by
      have h1 : x2 ≤ box2.x + box2.width := min_le_right _ _
      have h2 : box2.x ≤ x1 := le_max_right _ _
      linarith
    have hh1 : y2 - y1 ≤ box1.height := by
      have h1 : y2 ≤ box1.y + box1.height := min_le_left _ _
      have h2 : box1.y ≤ y1 := le_max_left _ _
      linarith
    have hh2 : y2 - y1 ≤ box2.height := by
      have h1 : y2 ≤ box2.y + box2.height := min_le_right _ _
      have h2 : box2.y ≤ y1 := le_max_right _ _
      linarith
    have hinter : 0 < (x2 - x1) * (y2 - y1) := mul_pos hiw hih
    have ha1 : (x2 - x1) * (y2 - y1) ≤ box1.width * box1.height :=
      mul_le_mul hw1 hh1 (le_of_lt hih) (by linarith)
    have ha2 : (x2 - x1) * (y2 - y1) ≤ box2.width * box2.height :=
      mul_le_mul hw2 hh2 (le_of_lt hih) (by linarith)
    have hunion : 0 < box1.width * box1.height + box2.width * box2.height -
        (x2 - x1) * (y2 - y1) := by linarith
    have hno : ¬ iouNoOverlap box1 box2 := by
      unfold iouNoOverlap
      push_neg
      exact ⟨hx, hy⟩
    refine ⟨⟨?_, ?_⟩, fun hc => absurd hc hno, fun _ => hunion⟩
    · exact div_nonneg (le_of_lt hinter) (le_of_lt hunion)
    · rw [div_le_one hunion]
      linarith

/-- Witness for C10 at concrete boxes: two unit squares that half
overlap, discharging the guard hypotheses by computation. -/
theorem calculateOverlapRatio_total_in_unit_interval_witness :
    (0 ≤ calculateOverlapRatio ⟨0, 0, 100, 100⟩ ⟨50, 50, 100, 100⟩ ∧
        calculateOverlapRatio ⟨0, 0, 100, 100⟩ ⟨50, 50, 100, 100⟩ ≤ 1) ∧
      (iouNoOverlap ⟨0, 0, 100, 100⟩ ⟨50, 50, 100, 100⟩ →
        calculateOverlapRatio ⟨0, 0, 100, 100⟩ ⟨50, 50, 100, 100⟩ = 0) ∧
      (¬ iouNoOverlap ⟨0, 0, 100, 100⟩ ⟨50, 50, 100, 100⟩ →
        0 < iouUnionArea ⟨0, 0, 100, 100⟩ ⟨50, 50, 100, 100⟩) :=
  calculateOverlapRatio_total_in_unit_interval ⟨0, 0, 100, 100⟩ ⟨50, 50, 100, 100⟩

/-- Membership is preserved by first-occurrence deduplication. -/
theorem firstDedup_mem {α : Type} [DecidableEq α] :
    ∀ (l : List α) (x : α), x ∈ firstDedup l ↔ x ∈ l := by
  intro l
  induction l using firstDedup.induct with
  | case1 => intro x; rw [firstDedup]
  | case2 a l ih =>
    intro x
    rw [firstDedup]
    by_cases hxa : x = a
    · simp [hxa]
    · simp only [List.mem_cons, ih, List.mem_filter, hxa, false_or, decide_eq_true_eq,
        ne_eq, and_iff_left hxa]
      simp

/-- First-occurrence deduplication produces a list without duplicates. -/
theorem firstDedup_nodup {α : Type} [DecidableEq α] :
    ∀ l : List α, (firstDedup l).Nodup := by
  intro l
  induction l using firstDedup.induct with
  | case1 => rw [firstDedup]; exact List.nodup_nil
  | case2 a l ih =>
    rw [firstDedup]
    refine List.nodup_cons.mpr ⟨fun hmem => ?_, ih⟩
    have := (firstDedup_mem _ a).mp hmem
    simp at this

/-- The reduce of cleanCluster returns an element of the group. -/
theorem bestByConfidence_mem : ∀ (ds : List BDetection) (d : BDetection),
    bestByConfidence d ds ∈ d :: ds := by
  intro ds
  induction ds with
  | nil => intro d; simp [bestByConfidence]
  | cons b bs ih =>
    intro d
    unfold bestByConfidence at ih ⊢
    rw [List.foldl_cons]
    rcases List.mem_cons.mp (ih (if b.confidence < d.confidence then d else b)) with h | h
    · rw [h]
      by_cases hc : b.confidence < d.confidence
      · simp [hc]
      · simp [hc]
    · exact List.mem_cons_of_mem _ (List.mem_cons_of_mem _ h)

/-- The reduce of cleanCluster returns a maximal-confidence element. -/
theorem bestByConfidence_le : ∀ (ds : List BDetection) (d : BDetection),
    ∀ x ∈ d :: ds, x.confidence ≤ (bestByConfidence d ds).confidence := by
  intro ds
  induction ds with
  | nil =>
    intro d x hx
    rcases List.mem_cons.mp hx with h | h
    · rw [h]; exact le_refl _
    · simp at h
  | cons b bs ih =>
    intro d x hx
    unfold bestByConfidence at ih ⊢
    rw [List.foldl_cons]
    have hstep : d.confidence ≤ (if b.confidence < d.confidence then d else b).confidence ∧
        b.confidence ≤ (if b.confidence < d.confidence then d else b).confidence := by
      by_cases hc : b.confidence < d.confidence
      · simp [hc]
        exact le_of_lt hc
      · simp [hc]
        exact le_of_not_lt hc
    have hhead := ih (if b.confidence < d.confidence then d else b)
        (if b.confidence < d.confidence then d else b) (List.mem_cons_self _ _)
    rcases List.mem_cons.mp hx with h | h
    · rw [h]
      exact le_trans hstep.1 hhead
    · rcases List.mem_cons.mp h with h2 | h2
      · rw [h2]
        exact le_trans hstep.2 hhead
      · exact ih _ x (List.mem_cons_of_mem _ h2)

/-- Joining the clusters gives back the detections, as a permutation. -/
theorem findCrossServiceClusters_join_perm (dets : List BDetection) :
    List.Perm (findCrossServiceClusters dets).flatten dets := by
  induction dets using findCrossServiceClusters.induct with
  | case1 => rw [findCrossServiceClusters]; exact List.Perm.refl _
  | case2 d rest ih =>
    rw [findCrossServiceClusters]
    rw [List.flatten_cons, List.cons_append]
    refine List.Perm.cons d ?_
    have hp := List.filter_append_perm
      (fun j => decide ((0.3 : ℚ) < calculateOverlapRatio d.bbox j.bbox)) rest
    exact (List.Perm.append_left _ ih).trans hp

/-- Every emitted cluster is nonempty, and every non-anchor member
overlaps the anchor strictly above the 0.3 threshold. -/
theorem findCrossServiceClusters_anchor (dets : List BDetection) :
    ∀ c ∈ findCrossServiceClusters dets, ∃ anchor rest2, c = anchor :: rest2 ∧
      ∀ m ∈ rest2, (0.3 : ℚ) < calculateOverlapRatio anchor.bbox m.bbox := by
  induction dets using findCrossServiceClusters.induct with
  | case1 => rw [findCrossServiceClusters]; intro c hc; simp at hc
  | case2 d rest ih =>
    intro c hc
    rw [findCrossServiceClusters] at hc
    rcases List.mem_cons.mp hc with h | h
    · refine ⟨d, _, h, fun m hm => ?_⟩
      exact of_decide_eq_true (List.mem_filter.mp hm).2
    · exact ih c h

/-- On a two-detection input the second joins the first iff their IoU is
strictly above 0.3. -/
theorem findCrossServiceClusters_pair (a b : BDetection) :
    findCrossServiceClusters [a, b] =
      if (0.3 : ℚ) < calculateOverlapRatio a.bbox b.bbox then [[a, b]] else [[a], [b]] := by
  by_cases h : (0.3 : ℚ) < calculateOverlapRatio a.bbox b.bbox
  · rw [if_pos h]
    rw [findCrossServiceClusters]
    simp [h, findCrossServiceClusters]
  · rw [if_neg h]
    rw [findCrossServiceClusters]
    simp only [List.filter_cons, List.filter_nil]
    simp [h, findCrossServiceClusters]

/-- C3: for every list of detections sharing one grouping key, the
initial-anchor clustering partitions the list: each detection lands in
exactly one cluster (the join of the clusters is a permutation of the
input); each cluster consists of an anchor plus members whose IoU with
the anchor, and the anchor only, is strictly greater than 0.30; on a
pair, the second detection is clustered with the first iff their IoU is
strictly greater than 0.30, so that IoU exactly 0.30 never clusters. -/
theorem findCrossServiceClusters_partition_spec :
    (∀ dets : List BDetection, List.Perm (findCrossServiceClusters dets).flatten dets) ∧
      (∀ dets : List BDetection, ∀ c ∈ findCrossServiceClusters dets,
        ∃ anchor rest2, c = anchor :: rest2 ∧
          ∀ m ∈ rest2, (0.3 : ℚ) < calculateOverlapRatio anchor.bbox m.bbox) ∧
      (∀ a b : BDetection, findCrossServiceClusters [a, b] =
        if (0.3 : ℚ) < calculateOverlapRatio a.bbox b.bbox then [[a, b]] else [[a], [b]]) ∧
      (∀ a b : BDetection, calculateOverlapRatio a.bbox b.bbox = (0.3 : ℚ) →
        findCrossServiceClusters [a, b] = [[a], [b]]) :=
  ⟨findCrossServiceClusters_join_perm, findCrossServiceClusters_anchor,
    findCrossServiceClusters_pair, fun a b h => by
      rw [findCrossServiceClusters_pair, if_neg (by rw [h]; exact lt_irrefl _)]⟩

/-- Witness for C3 at two concrete detections whose boxes meet at IoU
exactly 0.30 and at IoU above 0.30, discharging every hypothesis by
computation. -/
theorem findCrossServiceClusters_partition_spec_witness :
    findCrossServiceClusters
        [⟨"yolo", some "chair", "c", ⟨0, 0, 30, 100⟩, 0.9, "object_detection"⟩,
         ⟨"rtdetr", some "chair", "c", ⟨0, 0, 100, 100⟩, 0.8, "object_detection"⟩] =
      [[⟨"yolo", some "chair", "c", ⟨0, 0, 30, 100⟩, 0.9, "object_detection"⟩],
       [⟨"rtdetr", some "chair", "c", ⟨0, 0, 100, 100⟩, 0.8, "object_detection"⟩]] ∧
      findCrossServiceClusters
        [⟨"yolo", some "chair", "c", ⟨0, 0, 40, 100⟩, 0.9, "object_detection"⟩,
         ⟨"rtdetr", some "chair", "c", ⟨0, 0, 100, 100⟩, 0.8, "object_detection"⟩] =
      [[⟨"yolo", some "chair", "c", ⟨0, 0, 40, 100⟩, 0.9, "object_detection"⟩,
        ⟨"rtdetr", some "chair", "c", ⟨0, 0, 100, 100⟩, 0.8, "object_detection"⟩]] := by
  constructor
  · refine findCrossServiceClusters_partition_spec.2.2.2 _ _ ?_
    show calculateOverlapRatio ⟨0, 0, 30, 100⟩ ⟨0, 0, 100, 100⟩ = 0.3
    norm_num [calculateOverlapRatio, min_def, max_def]
  · rw [findCrossServiceClusters_partition_spec.2.2.1]
    rw [if_pos]
    show (0.3 : ℚ) < calculateOverlapRatio ⟨0, 0, 40, 100⟩ ⟨0, 0, 100, 100⟩
    norm_num [calculateOverlapRatio, min_def, max_def]

/-- Mapping the per-service best detections back to their services gives
back the service list, provided every service in the list is represented
in the cluster. -/
theorem filterMap_best_map_service (cluster : List BDetection) :
    ∀ ss : List String, (∀ s ∈ ss, ∃ d ∈ cluster, d.service = s) →
      ((ss.filterMap (fun s =>
        match cluster.filter (fun d => decide (d.service = s)) with
        | [] => none
        | d :: ds => some (bestByConfidence d ds))).map (fun d => d.service)) = ss := by
  intro ss
  induction ss with
  | nil => intro _; simp
  | cons s ss ih =>
    intro h
    have hne : cluster.filter (fun d => decide (d.service = s)) ≠ [] := by
      rcases h s (List.mem_cons_self _ _) with ⟨d, hd, hds⟩
      have hmem : d ∈ cluster.filter (fun d => decide (d.service = s)) :=
        List.mem_filter.mpr ⟨hd, by simp [hds]⟩
      exact List.ne_nil_of_mem hmem
    rcases hfil : cluster.filter (fun d => decide (d.service = s)) with _ | ⟨d, ds⟩
    · exact absurd hfil hne
    · have hserv : (bestByConfidence d ds).service = s := by
        have hmem := bestByConfidence_mem ds d
        rw [← hfil] at hmem
        exact of_decide_eq_true (List.mem_filter.mp hmem).2
      rw [List.filterMap_cons]
      simp only [hfil]
      rw [List.map_cons, hserv, ih (fun t ht => h t (List.mem_cons_of_mem _ ht))]

/-- The services of the deduplicated cluster are the distinct services
of the cluster in first-occurrence order. -/
theorem dedupClusterDetections_map_service (cluster : List BDetection) :
    (dedupClusterDetections cluster).map (fun d => d.service) =
      firstDedup (cluster.map (fun d => d.service)) := by
  unfold dedupClusterDetections
  refine filterMap_best_map_service cluster _ (fun s hs => ?_)
  have hmem : s ∈ cluster.map (fun d => d.service) := (firstDedup_mem _ s).mp hs
  rcases List.mem_map.mp hmem with ⟨d, hd, hds⟩
  exact ⟨d, hd, hds⟩

/-- Every detection surviving the same-service dedup belongs to the
cluster and dominates the confidence of its service mates. -/
theorem mem_dedupClusterDetections (cluster : List BDetection) :
    ∀ x ∈ dedupClusterDetections cluster, x ∈ cluster ∧
      ∀ d2 ∈ cluster, d2.service = x.service → d2.confidence ≤ x.confidence := by
  intro x hx
  unfold dedupClusterDetections at hx
  rcases List.mem_filterMap.mp hx with ⟨s, _, hmatch⟩
  rcases hfil : cluster.filter (fun d => decide (d.service = s)) with _ | ⟨d, ds⟩
  · rw [hfil] at hmatch
    simp at hmatch
  · rw [hfil] at hmatch
    simp only [Option.some.injEq] at hmatch
    subst hmatch
    have hmem := bestByConfidence_mem ds d
    rw [← hfil] at hmem
    have hserv : (bestByConfidence d ds).service = s :=
      of_decide_eq_true (List.mem_filter.mp hmem).2
    refine ⟨(List.mem_filter.mp hmem).1, fun d2 hd2 hs2 => ?_⟩
    have hd2f : d2 ∈ cluster.filter (fun d => decide (d.service = s)) :=
      List.mem_filter.mpr ⟨hd2, by simp [hs2, hserv]⟩
    rw [hfil] at hd2f
    exact bestByConfidence_le ds d d2 hd2f

/-- A nonempty cluster deduplicates to a nonempty list. -/
theorem dedupClusterDetections_ne_nil (cluster : List BDetection)
    (h : cluster ≠ []) : dedupClusterDetections cluster ≠ [] := by
  intro hcon
  have hms := dedupClusterDetections_map_service cluster
  rw [hcon] at hms
  rcases cluster with _ | ⟨c, cs⟩
  · exact h rfl
  · rw [List.map_cons, firstDedup] at hms
    simp at hms

/-- Soundness of cleanCluster: the surviving detections have
pairwise-distinct services, each is a maximal-confidence member of its
service group, and a survivor is either at least a pair or a
high-confidence singleton. -/
theorem cleanCluster_sound (cluster out : List BDetection)
  (h : cleanCluster cluster = some out) :
  (out.map (fun d => d.service)).Nodup ∧
    (∀ d ∈ out, d ∈ cluster ∧ ∀ d2 ∈ cluster, d2.service = d.service →
      d2.confidence ≤ d.confidence) ∧
    (2 ≤ out.length ∨ ∃ d, out = [d] ∧ (0.85 : ℚ) ≤ d.confidence) := by
  rcases hcl : cluster with _ | ⟨c, cs⟩
  · rw [hcl] at h
    simp [cleanCluster] at h
  · rw [hcl] at h
    rcases hdd : dedupClusterDetections (c :: cs) with _ | ⟨d1, _ | ⟨d2, ds⟩⟩
    · exact absurd hdd (dedupClusterDetections_ne_nil _ (by simp))
    · have hcc : cleanCluster (c :: cs) =
          if d1.confidence < (0.85 : ℚ) then none else some [d1] := by
        simp [cleanCluster, hdd]
      rw [hcc] at h
      by_cases hconf : d1.confidence < (0.85 : ℚ)
      · rw [if_pos hconf] at h
        exact absurd h (by simp)
      · rw [if_neg hconf] at h
        have hout : [d1] = out := Option.some.inj h
        subst hout
        refine ⟨by simp, fun d hd => ?_, Or.inr ⟨d1, rfl, not_lt.mp hconf⟩⟩
        have hd1 : d = d1 := by simpa using hd
        subst hd1
        have := mem_dedupClusterDetections (c :: cs) d (by rw [hdd]; simp)
        exact this
    · have hcc : cleanCluster (c :: cs) = some (d1 :: d2 :: ds) := by
        simp [cleanCluster, hdd]
      rw [hcc] at h
      have hout : d1 :: d2 :: ds = out := Option.some.inj h
      subst hout
      refine ⟨?_, fun d hd => ?_, Or.inl (by simp)⟩
      · rw [← hdd, dedupClusterDetections_map_service]
        exact firstDedup_nodup _
      · exact mem_dedupClusterDetections (c :: cs) d (by rw [hdd]; exact hd)

/-- The singleton boundary of cleanCluster: a cluster whose dedup is a
single detection survives iff its confidence is at least 0.85. -/
theorem cleanCluster_singleton_iff (cluster : List BDetection) (d : BDetection)
    (hne : cluster ≠ []) (hdd : dedupClusterDetections cluster = [d]) :
    (cleanCluster cluster = some [d] ↔ (0.85 : ℚ) ≤ d.confidence) ∧
      (cleanCluster cluster = none ↔ d.confidence < (0.85 : ℚ)) := by
  have hcc : cleanCluster cluster =
      if d.confidence < (0.85 : ℚ) then none else some [d] := by
    rcases cluster with _ | ⟨c, cs⟩
    · exact absurd rfl hne
    · simp [cleanCluster, hdd]
  rw [hcc]
  by_cases hconf : d.confidence < (0.85 : ℚ)
  · rw [if_pos hconf]
    constructor
    · constructor
      · intro hcon; exact absurd hcon (by simp)
      · intro hge; exact absurd hconf (not_lt.mpr hge)
    · exact ⟨fun _ => hconf, fun _ => rfl⟩
  · rw [if_neg hconf]
    constructor
    · exact ⟨fun _ => not_lt.mp hconf, fun _ => rfl⟩
    · constructor
      · intro hcon; exact absurd hcon (by simp)
      · intro hlt; exact absurd hlt hconf

/-- C4: cleaning keeps at most one detection per service, and the kept
detection has maximal confidence among its service mates; a cluster that
deduplicates to exactly one detection survives iff that detection's
confidence is at least 0.85, with 0.85 exactly kept and anything below
dropped; hence every surviving cluster has at least two members with
pairwise-distinct services, or a single member of confidence at least
0.85. -/
theorem cleanCluster_spec :
    (∀ (cluster out : List BDetection), cleanCluster cluster = some out →
      ((out.map (fun d => d.service)).Nodup ∧
        (∀ d ∈ out, d ∈ cluster ∧ ∀ d2 ∈ cluster, d2.service = d.service →
          d2.confidence ≤ d.confidence) ∧
        (2 ≤ out.length ∨ ∃ d, out = [d] ∧ (0.85 : ℚ) ≤ d.confidence))) ∧
    (∀ (cluster : List BDetection) (d : BDetection), cluster ≠ [] →
      dedupClusterDetections cluster = [d] →
      (cleanCluster cluster = some [d] ↔ (0.85 : ℚ) ≤ d.confidence) ∧
      (cleanCluster cluster = none ↔ d.confidence < (0.85 : ℚ))) :=
  ⟨fun cluster out h => cleanCluster_sound cluster out h,
    fun cluster d hne hdd => cleanCluster_singleton_iff cluster d hne hdd⟩

/-- Witness for C4: on a concrete three-detection cluster with a
same-service duplicate the clean step keeps the high-confidence
detection per service, and a concrete singleton at confidence exactly
0.85 is kept; every hypothesis is discharged by computation. -/
theorem cleanCluster_spec_witness :
    ((([exDetYoloHigh, exDetRtdetr]).map (fun d => d.service)).Nodup ∧
      (∀ d ∈ [exDetYoloHigh, exDetRtdetr],
        d ∈ [exDetYoloHigh, exDetYoloLow, exDetRtdetr] ∧
        ∀ d2 ∈ [exDetYoloHigh, exDetYoloLow, exDetRtdetr],
          d2.service = d.service → d2.confidence ≤ d.confidence) ∧
      (2 ≤ ([exDetYoloHigh, exDetRtdetr]).length ∨
        ∃ d, [exDetYoloHigh, exDetRtdetr] = [d] ∧ (0.85 : ℚ) ≤ d.confidence)) ∧
    cleanCluster [exDetShout] = some [exDetShout] := by
  constructor
  · refine cleanCluster_spec.1 [exDetYoloHigh, exDetYoloLow, exDetRtdetr]
      [exDetYoloHigh, exDetRtdetr] ?_
    simp [cleanCluster, dedupClusterDetections, firstDedup, bestByConfidence,
      List.filterMap_cons, List.filterMap_nil, List.filter_cons, List.filter_nil,
      exDetYoloHigh, exDetYoloLow, exDetRtdetr]
    norm_num
  · refine ((cleanCluster_spec.2 [exDetShout] exDetShout (by simp) ?_).1).mpr ?_
    · simp [dedupClusterDetections, firstDedup, bestByConfidence,
        List.filterMap_cons, List.filterMap_nil, List.filter_cons, List.filter_nil,
        exDetShout]
    · norm_num [exDetShout]

/-- First-occurrence deduplication leaves the underlying finite set
unchanged. -/
theorem firstDedup_toFinset {α : Type} [DecidableEq α] (l : List α) :
    (firstDedup l).toFinset = l.toFinset := by
  ext x
  simp [List.mem_toFinset, firstDedup_mem]

/-- The length of a first-occurrence deduplication is the cardinality of
the set of elements. -/
theorem firstDedup_length {α : Type} [DecidableEq α] (l : List α) :
    (firstDedup l).length = l.toFinset.card := by
  rw [← firstDedup_toFinset]
  exact (List.toFinset_card_of_nodup (firstDedup_nodup l)).symm

/-- The spatial consensus bonus of a group equals the closed formula of
the specification over the group's clustered spatial data. -/
theorem spatialConsensusBonus_eq_spec (detections : List VDetection) :
    spatialConsensusBonus (analyzeSpatialEvidence detections) =
      max 0 ((specMaxDetectionCount detections : Int) - 1) := by
  unfold analyzeSpatialEvidence specMaxDetectionCount
  by_cases h1 : (detections.filter (fun d => d.evidence_type = "spatial")).isEmpty
  · have he : detections.filter (fun d => d.evidence_type = "spatial") = [] :=
      List.isEmpty_iff.mp h1
    simp only [he]
    simp [spatialConsensusBonus]
  · by_cases h2 : ((detections.filter (fun d => d.evidence_type = "spatial")).filterMap
        (fun d => d.spatial_data)).isEmpty
    · have he2 : (detections.filter (fun d => d.evidence_type = "spatial")).filterMap
          (fun d => d.spatial_data) = [] := List.isEmpty_iff.mp h2
      simp only [h1, Bool.false_eq_true, if_false, he2]
      simp [spatialConsensusBonus]
    · simp only [h1, h2, Bool.false_eq_true, if_false]
      simp [spatialConsensusBonus]

/-- C2: for every emoji group, total_votes is the number of distinct
services among its detections excluding the spatial_clustering
sentinel; the pre-curation evidence weight equals the specification's
closed formula (votes plus spatial consensus bonus plus content
consensus bonus, the outer clamp being redundant); and the final score
is total_votes plus the weight. -/
theorem analyzeEmojiEvidence_weight_formula (emoji : String) (detections : List VDetection) :
    (analyzeOneGroup emoji detections).total_votes = specTotalVotes detections ∧
      calculateEvidenceWeight (analyzeOneGroup emoji detections) =
        specEvidenceWeight detections ∧
      (enrichAnalysis (analyzeOneGroup emoji detections)).final_score =
        ((analyzeOneGroup emoji detections).total_votes : Int) +
          calculateEvidenceWeight (analyzeOneGroup emoji detections) := by
  have hsp : (analyzeOneGroup emoji detections).spatial = analyzeSpatialEvidence detections := rfl
  have hv : (analyzeOneGroup emoji detections).total_votes = specTotalVotes detections := by
    show (votingServices detections).length = _
    unfold votingServices specTotalVotes
    exact firstDedup_length _
  refine ⟨hv, ?_, rfl⟩
  unfold calculateEvidenceWeight
  rw [hsp, spatialConsensusBonus_eq_spec, hv]
  have hsem : (analyzeOneGroup emoji detections).semantic_count =
      (detections.filter (fun d => d.evidence_type = "semantic")).length := rfl
  have hcls : (analyzeOneGroup emoji detections).classification_count =
      (detections.filter (fun d => d.evidence_type = "classification")).length := rfl
  rw [hsem, hcls]
  unfold specEvidenceWeight specContentBonus
  have hb1 : (0 : Int) ≤ max 0 ((specMaxDetectionCount detections : Int) - 1) := le_max_left _ _
  set t := (detections.filter (fun d => d.evidence_type = "semantic")).length +
    (detections.filter (fun d => d.evidence_type = "classification")).length with ht
  by_cases h2 : 2 ≤ t
  · simp only [if_pos h2]
    omega
  · simp only [if_neg h2]
    omega

/-- Membership characterization of the ranked consensus: an item is
emitted iff it is the emission of some group's enriched analysis that
passed the vote filter. -/
theorem mem_rankGroups (groups : List (String × List VDetection)) (c : ConsensusItem) :
    c ∈ rankGroups groups ↔ ∃ a, (∃ g ∈ groups, analyzeOneGroup g.1 g.2 = a) ∧
      shouldIncludeInResults a = true ∧ toConsensusItem (enrichAnalysis a) = c := by
  unfold rankGroups calculateFinalRanking
  simp only [List.mem_map, List.mem_insertionSort, List.mem_filter]
  constructor
  · rintro ⟨r, ⟨⟨a, ⟨g, hg, hga⟩, har⟩, hinc⟩, hrc⟩
    subst har
    exact ⟨a, ⟨g, hg, hga⟩, hinc, hrc⟩
  · rintro ⟨a, ⟨g, hg, hga⟩, hinc, hc⟩
    exact ⟨enrichAnalysis a, ⟨⟨a, ⟨g, hg, hga⟩, rfl⟩, hinc⟩, hc⟩

/-- C1: an emoji appears in the emitted consensus list iff its group
has total_votes at least 2 (so one vote is never emitted and two votes
are emitted), and the emitted list is sorted by total_votes descending
with ties broken by evidence_weight descending. -/
theorem rankGroups_membership_and_sorted (groups : List (String × List VDetection)) :
    (∀ e : String, (∃ c ∈ rankGroups groups, c.emoji = e) ↔
      (∃ g ∈ groups, g.1 = e ∧ 2 ≤ (analyzeOneGroup g.1 g.2).total_votes)) ∧
    (∀ c ∈ rankGroups groups, 2 ≤ c.votes) ∧
    List.Pairwise (fun c1 c2 => c2.votes < c1.votes ∨
      (c1.votes = c2.votes ∧ c2.evidence_weight ≤ c1.evidence_weight)) (rankGroups groups) := by
  refine ⟨?_, ?_, ?_⟩
  · intro e
    constructor
    · rintro ⟨c, hc, hce⟩
      rcases (mem_rankGroups groups c).mp hc with ⟨a, ⟨g, hg, hga⟩, hinc, htc⟩
      have hemoji : c.emoji = a.emoji := by rw [← htc]; rfl
      have haemoji : a.emoji = g.1 := by rw [← hga]; rfl
      have hv : 2 ≤ a.total_votes := by
        have := of_decide_eq_true hinc
        omega
      refine ⟨g, hg, ?_, ?_⟩
      · rw [← hce, hemoji, haemoji]
      · rw [hga]; exact hv
    · rintro ⟨g, hg, hge, hv⟩
      refine ⟨toConsensusItem (enrichAnalysis (analyzeOneGroup g.1 g.2)), ?_, ?_⟩
      · refine (mem_rankGroups groups _).mpr
          ⟨analyzeOneGroup g.1 g.2, ⟨g, hg, rfl⟩, ?_, rfl⟩
        have : 1 < (analyzeOneGroup g.1 g.2).total_votes := hv
        exact decide_eq_true this
      · show (analyzeOneGroup g.1 g.2).emoji = e
        exact hge
  · intro c hc
    rcases (mem_rankGroups groups c).mp hc with ⟨a, _, hinc, htc⟩
    have hv : 1 < a.total_votes := of_decide_eq_true hinc
    have : c.votes = a.total_votes := by rw [← htc]; rfl
    omega
  · unfold rankGroups calculateFinalRanking
    have hs := List.sorted_insertionSort rankLE
      (((groups.map fun g => analyzeOneGroup g.1 g.2).map enrichAnalysis).filter
        (fun r => shouldIncludeInResults r.analysis))
    exact List.Pairwise.map toConsensusItem (fun a b hab => hab) hs

/-- Witness for C1: on a concrete group map the two-vote cat emoji is
emitted, the one-vote chair emoji is not, and every emitted item has at
least two votes; hypotheses discharged by computation. -/
theorem rankGroups_membership_and_sorted_witness :
    (∃ c ∈ rankGroups exGroups, c.emoji = "😺") ∧
      ¬ (∃ c ∈ rankGroups exGroups, c.emoji = "🪑") ∧
      (∀ c ∈ rankGroups exGroups, 2 ≤ c.votes) := by
  have h := rankGroups_membership_and_sorted exGroups
  refine ⟨?_, ?_, h.2.1⟩
  · refine (h.1 "😺").mpr ⟨("😺", exCatDetections), by simp [exGroups], rfl, ?_⟩
    show 2 ≤ (votingServices exCatDetections).length
    simp [votingServices, firstDedup, exCatDetections]
  · intro hcon
    rcases (h.1 "🪑").mp hcon with ⟨g, hg, hge, hv⟩
    have hv2 : 2 ≤ (votingServices g.2).length := hv
    rcases (by simpa [exGroups] using hg : g = ("😺", exCatDetections) ∨
        g = ("🪑", exChairDetections)) with rfl | rfl
    · exact absurd hge (by simp)
    · rw [show votingServices exChairDetections = ["yolo"] from by
        simp [votingServices, firstDedup, exChairDetections]] at hv2
      simp at hv2

/-- C5: curation of the already-ranked consensus list.  The pipeline
maps curateItem over the list with the presence flags computed from the
list; when the face emoji is present (and no pose evidence, which the
pipeline never produces) the person item gains exactly one evidence
weight and one final score and records face_confirmed; when the NSFW
emoji item is curated it gains one weight and one score and records
human_context_confirmed if the person emoji is present, and otherwise
loses one of each, clamped at zero, recording suspicious_no_humans; in
every case the curated NSFW item's evidence weight and final score are
at least zero. -/
theorem applyPostProcessingCuration_spec :
    (∀ items : List ConsensusItem,
      applyPostProcessingCuration items = items.map
        (curateItem (items.any fun i => i.emoji = faceEmoji)
          (items.any fun i => i.emoji = personEmoji)
          (items.any fun o => match o.specialized with
            | some keys => keys.contains "pose"
            | none => false))) ∧
    (∀ (facePresent personPresent hasPose : Bool) (item : ConsensusItem),
      item.emoji = personEmoji → facePresent = true → hasPose = false →
      0 ≤ item.evidence_weight → 0 ≤ item.final_score →
      (curateItem facePresent personPresent hasPose item).evidence_weight =
          item.evidence_weight + 1 ∧
        (curateItem facePresent personPresent hasPose item).final_score =
          item.final_score + 1 ∧
        "face_confirmed" ∈ (curateItem facePresent personPresent hasPose item).validation) ∧
    (∀ (facePresent personPresent hasPose : Bool) (item : ConsensusItem),
      item.emoji = nsfwEmoji → personPresent = true →
      0 ≤ item.evidence_weight → 0 ≤ item.final_score →
      (curateItem facePresent personPresent hasPose item).evidence_weight =
          item.evidence_weight + 1 ∧
        (curateItem facePresent personPresent hasPose item).final_score =
          item.final_score + 1 ∧
        "human_context_confirmed" ∈
          (curateItem facePresent personPresent hasPose item).validation) ∧
    (∀ (facePresent personPresent hasPose : Bool) (item : ConsensusItem),
      item.emoji = nsfwEmoji → personPresent = false →
      (curateItem facePresent personPresent hasPose item).evidence_weight =
          max 0 (item.evidence_weight - 1) ∧
        (curateItem facePresent personPresent hasPose item).final_score =
          max 0 (item.final_score - 1) ∧
        "suspicious_no_humans" ∈
          (curateItem facePresent personPresent hasPose item).validation) ∧
    (∀ (facePresent personPresent hasPose : Bool) (item : ConsensusItem),
      item.emoji = nsfwEmoji →
      0 ≤ (curateItem facePresent personPresent hasPose item).evidence_weight ∧
        0 ≤ (curateItem facePresent personPresent hasPose item).final_score) := by
  have hpn : ¬ (personEmoji = nsfwEmoji) := by decide
  have hnp : ¬ (nsfwEmoji = personEmoji) := by decide
  refine ⟨fun items => rfl, ?_, ?_, ?_, ?_⟩
  · intro facePresent personPresent hasPose item h1 h2 h3 hw hs
    subst h2 h3
    simp [curateItem, h1, hpn]
    omega
  · intro facePresent personPresent hasPose item h1 h2 hw hs
    subst h2
    simp [curateItem, h1, hnp]
    omega
  · intro facePresent personPresent hasPose item h1 h2
    subst h2
    simp [curateItem, h1, hnp]
    constructor <;> congr 1
  · intro facePresent personPresent hasPose item h1
    rcases Bool.eq_false_or_eq_true personPresent with h2 | h2 <;> subst h2 <;>
      simp [curateItem, h1, hnp]

/-- Witness for C5 at concrete items: the person item with face present
gains one weight and one score and records face_confirmed; the NSFW
item without a person loses one of each, clamped, and stays
non-negative; hypotheses discharged by computation. -/
theorem applyPostProcessingCuration_spec_witness :
    ((curateItem true true false exPersonItem).evidence_weight =
        exPersonItem.evidence_weight + 1 ∧
      (curateItem true true false exPersonItem).final_score =
        exPersonItem.final_score + 1 ∧
      "face_confirmed" ∈ (curateItem true true false exPersonItem).validation) ∧
    ((curateItem false false false exNsfwItem).evidence_weight =
        max 0 (exNsfwItem.evidence_weight - 1) ∧
      (curateItem false false false exNsfwItem).final_score =
        max 0 (exNsfwItem.final_score - 1) ∧
      "suspicious_no_humans" ∈ (curateItem false false false exNsfwItem).validation) ∧
    (0 ≤ (curateItem false false false exNsfwItem).evidence_weight ∧
      0 ≤ (curateItem false false false exNsfwItem).final_score) :=
  ⟨applyPostProcessingCuration_spec.2.1 true true false exPersonItem rfl rfl rfl
      (by decide) (by decide),
    applyPostProcessingCuration_spec.2.2.2.1 false false false exNsfwItem rfl rfl,
    applyPostProcessingCuration_spec.2.2.2.2 false false false exNsfwItem rfl⟩

/-- Reduction of a bind on a successful Except value. -/
theorem except_bind_ok {ε α β : Type} (a : α) (f : α → Except ε β) :
    (Except.ok a >>= f) = f a := rfl

/-- Reduction of a bind on a failed Except value. -/
theorem except_bind_error {ε α β : Type} (e : ε) (f : α → Except ε β) :
    ((Except.error e : Except ε α) >>= f) = Except.error e := rfl

/-- Reduction of a map on a successful Except value. -/
theorem except_map_ok {ε α β : Type} (f : α → β) (a : α) :
    Except.map f (Except.ok a : Except ε α) = Except.ok (f a) := rfl

/-- Reduction of a map on a failed Except value. -/
theorem except_map_error {ε α β : Type} (f : α → β) (e : ε) :
    Except.map f (Except.error e : Except ε α) = Except.error e := rfl

/-- Reduction of pure in the Except monad. -/
theorem except_pure {ε α : Type} (a : α) :
    (pure a : Except ε α) = Except.ok a := rfl

/-- C6 (amended): a detection whose cluster is dropped by the singleton
filter is absent from the instances of its emoji group (every emitted
instance has at least two members or a single member of confidence at
least 0.85), and group detections all remain in all_detections, which
is assembled before cleaning; the claim's further assertion that the
dropped detection is absent from the emitted all_detections array is
refuted by the counterexample. -/
theorem processBoundingBoxes_dropped_singletons (norm : String → String)
    (le : List BDetection → List BDetection → Bool)
    (results : List (String × ServiceResult)) (dims : Option Dims) (out : BBoxOutput)
    (h : processBoundingBoxes norm le results dims = Except.ok out) :
    (∀ g ∈ out.grouped, ∀ inst ∈ g.2.instances,
      2 ≤ inst.detection_count ∨
        ∃ s c, inst.detections = [(s, c)] ∧ (0.85 : ℚ) ≤ c) ∧
    (∀ g ∈ out.grouped, ∀ d ∈ g.2.detections, d ∈ out.all_detections) := by
  rcases hex : extractBBoxDetections results dims with e | all
  · unfold processBoundingBoxes at h
    rw [hex] at h
    simp [Except.map] at h
  · unfold processBoundingBoxes at h
    rw [hex] at h
    simp only [Except.map] at h
    have hout : out = ⟨all, groupByLabelWithCrossServiceClustering norm le all⟩ :=
      (Except.ok.inj h).symm
    subst hout
    constructor
    · intro g hg inst hinst
      rcases List.mem_map.mp hg with ⟨kg, _, hkgg⟩
      have hinst2 : inst ∈ createCrossServiceInstances le kg.2
          ((kg.2.head?.map (fun d => d.emoji)).getD "") := by
        rw [← hkgg] at hinst
        exact hinst
      unfold createCrossServiceInstances at hinst2
      by_cases hemp : kg.2.isEmpty
      · simp [hemp] at hinst2
      · simp only [hemp, Bool.false_eq_true, if_false] at hinst2
        rcases List.exists_of_mem_mapIdx hinst2 with ⟨i, hi, hmk⟩
        set cleaned := (sortClustersBy le (findCrossServiceClusters kg.2)).filterMap
          cleanCluster with hcleaned
        have hcmem : cleaned[i] ∈ cleaned := List.getElem_mem hi
        rcases List.mem_filterMap.mp hcmem with ⟨cl0, _, hclean⟩
        have hsound := cleanCluster_sound cl0 _ hclean
        rcases hsound.2.2 with hlen | ⟨d, hd, hconf⟩
        · left
          rw [← hmk]
          simpa [mkInstance] using hlen
        · right
          refine ⟨d.service, d.confidence, ?_, hconf⟩
          rw [← hmk]
          simp [mkInstance] at hd ⊢
          rw [hd]
          rfl
    · intro g hg d hd
      rcases List.mem_map.mp hg with ⟨kg, hkg, hkgg⟩
      rcases List.mem_map.mp hkg with ⟨k, _, hk⟩
      have hd2 : d ∈ all.filter (fun x => groupKey norm x = k) := by
        have : g.2.detections = all.filter (fun x => groupKey norm x = k) := by
          rw [← hkgg, ← hk]
        rw [← this]
        exact hd
      exact (List.mem_filter.mp hd2).1

/-- Evaluation of the pipeline on the concrete one-chair input with
valid dimensions: the chair is extracted and grouped, its singleton
cluster is dropped, and all_detections keeps it. -/
theorem exChair_processBoundingBoxes :
    processBoundingBoxes id (fun _ _ => true) exChairResults (some exDims) =
      Except.ok exChairOutput := by
  have hscale : scaleCoordinates ⟨0, 0, 100, 100⟩ (some exDims) (some exDims) =
      Except.ok ⟨0, 0, 100, 100⟩ := by
    simp [scaleCoordinates, exDims, jsRound]
    norm_num
  have hex : extractBBoxDetections exChairResults (some exDims) =
      Except.ok [exChairDet] := by
    simp [extractBBoxDetections, bboxServices, lookupService, exChairResults, hscale,
      exChairDet, List.foldlM, except_bind_ok, except_map_ok, except_pure]
  have hclean : cleanCluster
      [⟨"yolo", some "chair", "🪑", ⟨0, 0, 100, 100⟩, 0.5, "object_detection"⟩] = none := by
    simp [cleanCluster, dedupClusterDetections, firstDedup, bestByConfidence,
      List.filterMap_cons]
    norm_num
  unfold processBoundingBoxes
  rw [hex]
  simp [Except.map, groupByLabelWithCrossServiceClustering, groupByKey, groupKey,
    firstDedup, createCrossServiceInstances, findCrossServiceClusters, sortClustersBy,
    List.insertionSort, hclean, exChairOutput, exChairDet]

/-- Counterexample for C6 as stated: on the one-chair input the
singleton cluster is dropped from every group's instances and
contributes no spatial_clustering sentinel, yet the chair detection is
still present in the emitted all_detections array of
createCompactBoundingBoxes. -/
theorem processBoundingBoxes_dropped_singletons_counterexample :
    processBoundingBoxes id (fun _ _ => true) exChairResults (some exDims) =
      Except.ok exChairOutput ∧
    (∀ g ∈ exChairOutput.grouped, g.2.instances = []) ∧
    extractSpatialSentinels exChairOutput.grouped = [] ∧
    createCompactBoundingBoxes exChairOutput =
      [⟨"🪑", some "chair", "yolo", ⟨0, 0, 100, 100⟩, 0.5, "object_detection"⟩] := by
  refine ⟨exChair_processBoundingBoxes, ?_, ?_, ?_⟩
  · simp [exChairOutput]
  · simp [extractSpatialSentinels, exChairOutput]
  · simp [createCompactBoundingBoxes, exChairOutput, exChairDet]

/-- Witness for C6 at the concrete one-chair input, discharging the
pipeline hypothesis with the computed evaluation. -/
theorem processBoundingBoxes_dropped_singletons_witness :
    (∀ g ∈ exChairOutput.grouped, ∀ inst ∈ g.2.instances,
      2 ≤ inst.detection_count ∨
        ∃ s c, inst.detections = [(s, c)] ∧ (0.85 : ℚ) ≤ c) ∧
    (∀ g ∈ exChairOutput.grouped, ∀ d ∈ g.2.detections,
      d ∈ exChairOutput.all_detections) :=
  processBoundingBoxes_dropped_singletons id (fun _ _ => true) exChairResults
    (some exDims) exChairOutput exChair_processBoundingBoxes

/-- C7: with null image dimensions the bounding-box pipeline does not
pass bboxes through unscaled; scaleCoordinates dereferences the null
dimensions and the whole request fails with a TypeError, while the
identical input with measured dimensions succeeds.  This contradicts
the claimed no-op rescaling and documents the code bug. -/
theorem processBoundingBoxes_nullDims_typeerror :
    processBoundingBoxes id (fun _ _ => true) exChairResults none =
      Except.error "TypeError: Cannot read properties of null (reading width)" ∧
    processBoundingBoxes id (fun _ _ => true) exChairResults (some exDims) =
      Except.ok exChairOutput := by
  refine ⟨?_, exChair_processBoundingBoxes⟩
  simp [processBoundingBoxes, extractBBoxDetections, bboxServices, lookupService,
    exChairResults, scaleCoordinates, List.foldlM, except_bind_ok, except_bind_error,
    except_map_ok, except_map_error, except_pure]

/-- The status classification keeps the service name. -/
theorem mkServiceStatus_service (s : SettledServiceResult) :
    (mkServiceStatus s).service = s.serviceName := by
  rcases s with ⟨n, o⟩
  rcases o with msg | r
  · simp [mkServiceStatus]
  · rfl

/-- A settled promise classifies as non-success exactly when it was
rejected (both the timeout and the error labels differ from
success). -/
theorem mkServiceStatus_failed (s : SettledServiceResult) :
    decide ((mkServiceStatus s).status ≠ "success") = outcomeFailed s := by
  rcases s with ⟨n, o⟩
  rcases o with msg | r
  · simp only [mkServiceStatus, outcomeFailed]
    split_ifs <;> simp
  · simp [mkServiceStatus, outcomeFailed]

/-- The failed-service selection over the status list is the image of
the rejected settled promises. -/
theorem failedServices_eq (settled : List SettledServiceResult) :
    failedServicesOf (settled.map mkServiceStatus) =
      (settled.filter outcomeFailed).map mkServiceStatus := by
  unfold failedServicesOf
  rw [List.filter_map]
  congr 1
  apply List.filter_congr
  intro s _
  exact mkServiceStatus_failed s

/-- C8: an individual analyzer failure never fails the request: every
settled analyzer still contributes its results entry; the top-level
success flag is true iff no analyzer failed; and when at least one
analyzer's status is not success the response carries a
service_health_summary naming the degraded services with failed_count
and total_services, with success false. -/
theorem performAnalysis_partial_failure (settled : List SettledServiceResult) :
    ((createCompactResponseCore settled).success = true ↔
      ∀ s ∈ settled, outcomeFailed s = false) ∧
    ((∃ s ∈ settled, outcomeFailed s = true) →
      (createCompactResponseCore settled).success = false ∧
      (createCompactResponseCore settled).service_health_summary =
        some ⟨(settled.filter outcomeFailed).map (fun s => s.serviceName),
          (settled.filter outcomeFailed).length, settled.length⟩) ∧
    (∀ s ∈ settled, mkResultsEntry s ∈ (createCompactResponseCore settled).results) := by
  have hfe := failedServices_eq settled
  by_cases hf : settled.filter outcomeFailed = []
  · have hsummary : buildHealthSummary (settled.map mkServiceStatus) = none := by
      unfold buildHealthSummary
      rw [hfe, hf]
      simp
    refine ⟨?_, ?_, ?_⟩
    · constructor
      · intro _ s hs
        rcases Bool.eq_false_or_eq_true (outcomeFailed s) with h | h
        · exfalso
          have : s ∈ settled.filter outcomeFailed := List.mem_filter.mpr ⟨hs, h⟩
          rw [hf] at this
          simp at this
        · exact h
      · intro _
        simp [createCompactResponseCore, hsummary]
    · rintro ⟨s, hs, hfl⟩
      have : s ∈ settled.filter outcomeFailed := List.mem_filter.mpr ⟨hs, hfl⟩
      rw [hf] at this
      simp at this
    · intro s hs
      simp only [createCompactResponseCore]
      exact List.mem_map_of_mem mkResultsEntry hs
  · have hlen : 0 < (settled.filter outcomeFailed).length :=
      List.length_pos.mpr hf
    have hsummary : buildHealthSummary (settled.map mkServiceStatus) =
        some ⟨(settled.filter outcomeFailed).map (fun s => s.serviceName),
          (settled.filter outcomeFailed).length, settled.length⟩ := by
      unfold buildHealthSummary
      rw [hfe]
      rw [if_pos (by simpa using hlen)]
      refine congrArg some ?_
      simp only [List.map_map, List.length_map]
      congr 1
      apply List.map_congr_left
      intro s _
      exact mkServiceStatus_service s
    have hdeg : ((settled.filter outcomeFailed).map
        (fun s => s.serviceName)).isEmpty = false := by
      rw [Bool.eq_false_iff]
      simp [List.isEmpty_iff, hf]
    have hsucc_val : (createCompactResponseCore settled).success = false := by
      simp [createCompactResponseCore, hsummary, hdeg]
    have hsum_val : (createCompactResponseCore settled).service_health_summary =
        some ⟨(settled.filter outcomeFailed).map (fun s => s.serviceName),
          (settled.filter outcomeFailed).length, settled.length⟩ := by
      simp [createCompactResponseCore, hsummary]
    refine ⟨?_, fun _ => ⟨hsucc_val, hsum_val⟩, ?_⟩
    · constructor
      · intro hs
        rw [hsucc_val] at hs
        exact absurd hs (by simp)
      · intro hall
        exfalso
        rcases List.exists_mem_of_ne_nil _ hf with ⟨s, hsmem⟩
        rcases List.mem_filter.mp hsmem with ⟨hs, hfl⟩
        rw [hall s hs] at hfl
        exact Bool.false_ne_true hfl
    · intro s hs
      simp only [createCompactResponseCore]
      exact List.mem_map_of_mem mkResultsEntry hs

/-- Witness for C8 at one fulfilled and one rejected analyzer:
the response succeeds partially with success false and a health summary
naming yolo; hypotheses discharged by computation. -/
theorem performAnalysis_partial_failure_witness :
    (createCompactResponseCore exSettled).success = false ∧
      (createCompactResponseCore exSettled).service_health_summary =
        some ⟨["yolo"], 1, 2⟩ ∧
      mkResultsEntry ⟨"blip", Except.ok ⟨true, 3, 1⟩⟩ ∈
        (createCompactResponseCore exSettled).results := by
  have h := performAnalysis_partial_failure exSettled
  have hex : ∃ s ∈ exSettled, outcomeFailed s = true :=
    ⟨⟨"yolo", Except.error "yolo service timeout: x"⟩, by simp [exSettled], rfl⟩
  have hfilter : exSettled.filter outcomeFailed =
      [⟨"yolo", Except.error "yolo service timeout: x"⟩] := by
    simp [exSettled, outcomeFailed, List.filter_cons]
  refine ⟨(h.2.1 hex).1, ?_, h.2.2 ⟨"blip", Except.ok ⟨true, 3, 1⟩⟩ (by simp [exSettled])⟩
  rw [(h.2.1 hex).2, hfilter]
  simp [exSettled]

/-- Counterexample for C9 as stated: the V2 client retries after a
response whose status field is error (with two retries allowed it ends
up succeeding on the second attempt, which is impossible without a
retry, as the zero-retry run of the same attempt sequence fails), and
the V3 client's per-call deadline defaults to 30000 ms, not 15
seconds, with a retry budget of zero. -/
theorem analyzerClient_retry_counterexample :
    processImageModel 2 exAttemptsStatusError 0 = Except.ok ⟨"success", none⟩ ∧
    processImageModel 0 exAttemptsStatusError 0 =
      Except.error "service failed after 0 retries: Service error: boom" ∧
    v3Timeout none = 30000 ∧ v3Retries = 0 := by
  refine ⟨?_, ?_, rfl, rfl⟩
  · simp [processImageModel, exAttemptsStatusError, attemptResult, processV2ResponseModel]
  · simp [processImageModel, exAttemptsStatusError, attemptResult, processV2ResponseModel]
    rfl

/-- C9 (amended): the live V3 client bounds each call by a timeout
defaulting to 30000 ms and never retries (its result depends only on
the first attempt); the legacy V2 client returns a successful first
attempt directly, and otherwise retries while retryCount is below
maxRetries on every caught failure, where transport errors, deadline
expiry and response bodies with status error all count as caught
failures, giving up with a terminal error once the retry budget is
exhausted. -/
theorem analyzerClient_retry_spec :
    (∀ (maxRetries retryCount : Nat) (attempts : Nat → AttemptOutcome) (r : V2RespData),
      attemptResult (attempts retryCount) = Except.ok r →
      processImageModel maxRetries attempts retryCount = Except.ok r) ∧
    (∀ (maxRetries retryCount : Nat) (attempts : Nat → AttemptOutcome) (msg : String),
      attemptResult (attempts retryCount) = Except.error msg →
      retryCount < maxRetries →
      processImageModel maxRetries attempts retryCount =
        processImageModel maxRetries attempts (retryCount + 1)) ∧
    (∀ (maxRetries retryCount : Nat) (attempts : Nat → AttemptOutcome) (msg : String),
      attemptResult (attempts retryCount) = Except.error msg →
      ¬ retryCount < maxRetries →
      processImageModel maxRetries attempts retryCount =
        Except.error ("service failed after " ++ toString maxRetries ++
          " retries: " ++ msg)) ∧
    (∀ data : V2RespData, data.status = "error" →
      attemptFails (AttemptOutcome.response data)) ∧
    (attemptFails AttemptOutcome.timeoutExpired ∧
      ∀ msg : String, attemptFails (AttemptOutcome.transportError msg)) ∧
    (∀ attempts attempts2 : Nat → AttemptOutcome, attempts 0 = attempts2 0 →
      v3AnalyzeModel attempts = v3AnalyzeModel attempts2) ∧
    v3Retries = 0 ∧
    (∀ t : Option Nat, v3Timeout t = Option.getD t 30000) := by
  refine ⟨?_, ?_, ?_, ?_, ?_, ?_, rfl, fun t => rfl⟩
  · intro mr rc attempts r h
    unfold processImageModel
    rw [h]
  · intro mr rc attempts msg h hlt
    conv_lhs => unfold processImageModel
    rw [h]
    simp [hlt]
  · intro mr rc attempts msg h hnlt
    unfold processImageModel
    rw [h]
    simp [hnlt]
  · intro data h
    exact ⟨"Service error: " ++ data.errorMessage.getD "Unknown error", by
      simp [attemptResult, processV2ResponseModel, h]⟩
  · exact ⟨⟨"Request timeout", rfl⟩, fun msg => ⟨msg, rfl⟩⟩
  · intro a1 a2 h
    unfold v3AnalyzeModel
    rw [h]

/-- Witness for C9 at concrete attempt sequences: a status-error
response triggers a retry, counts as a caught failure, and the V3
client's result is insensitive to everything after the first attempt;
hypotheses discharged by computation. -/
theorem analyzerClient_retry_spec_witness :
    processImageModel 2 exAttemptsStatusError 0 =
      processImageModel 2 exAttemptsStatusError 1 ∧
    attemptFails (AttemptOutcome.response ⟨"error", some "boom"⟩) ∧
    v3AnalyzeModel exAttemptsStatusError =
      v3AnalyzeModel (fun _ => AttemptOutcome.response ⟨"error", some "boom"⟩) :=
  ⟨analyzerClient_retry_spec.2.1 2 0 exAttemptsStatusError "Service error: boom"
      (by simp [exAttemptsStatusError, attemptResult, processV2ResponseModel]) (by omega),
    analyzerClient_retry_spec.2.2.2.1 ⟨"error", some "boom"⟩ rfl,
    analyzerClient_retry_spec.2.2.2.2.2.1 exAttemptsStatusError
      (fun _ => AttemptOutcome.response ⟨"error", some "boom"⟩) rfl⟩

end AnimalFarm
